import Mathlib

/-!
Shallow embedding of the QCManagementSystem frontend (React client) and
proofs about its session lifecycle, request gateway, and CRUD screens.

Sources embedded:
  frontend/src/context/AuthContext.js   (session store: loadUser, login, logout)
  frontend/src/services/api.js          (authorized request gateway wrappers)
  frontend/src/components/Companies.js  (companies CRUD screen and CaptureImage upload)
  frontend/src/components/Products.js   (products CRUD screen)
  pages/ImageManagerPage (unnamed part)  (image list and delete)
  Steps screen (unnamed part)            (step CRUD and step-number assignment)
  frontend/src/components/ProjectCreator.js (single-flight project creation)

JavaScript idioms are modelled explicitly: truthiness of strings (empty
string is falsy), the `x || fallback` operator on possibly-absent strings,
and exceptions as explicit outcome values (every wrapper catches, so the
embedded functions are total).
-/

namespace QCMS

/-- JavaScript `x || fallback` where `x` is a possibly-absent string:
an absent or empty string is falsy and selects the fallback. -/
def jsOr (m : Option String) (fallback : String) : String :=
  match m with
  | some s => if s = "" then fallback else s
  | none => fallback

/-- JavaScript `String.prototype.trim`, modelled over the character list
(whitespace stripped from both ends). -/
def jsTrim (s : String) : String :=
  String.mk (((s.toList.dropWhile Char.isWhitespace).reverse.dropWhile
    Char.isWhitespace).reverse)

/-- JavaScript truthiness of a possibly-absent string value. -/
def jsTruthy (o : Option String) : Bool :=
  match o with
  | some s => !(s = "")
  | none => false

/-! ## Tokens and the jwt-decode library boundary

A stored token either decodes to a payload with an `exp` (seconds) and a
`sub` (subject id), or fails to decode (`jwt_decode` throws). The decoding
library is outside the repository; it is modelled by the constructors. -/

inductive Tok where
  | jwt (exp : Int) (sub : Nat)
  | raw (s : String)
  deriving DecidableEq

structure DecodedJwt where
  exp : Int
  sub : Nat
  deriving DecidableEq

def jwtDecode : Tok → Option DecodedJwt
  | .jwt e s => some ⟨e, s⟩
  | .raw _ => none

/-! ## Session store (frontend/src/context/AuthContext.js) -/

/-- The two persisted localStorage keys the client uses. -/
structure Storage where
  token : Option Tok
  username : Option String
  deriving DecidableEq

structure AuthUser where
  id : Nat
  username : Option String
  deriving DecidableEq

/-- The `auth` React state of `AuthProvider`. -/
structure AuthState where
  loading : Bool
  isAuthenticated : Bool
  user : Option AuthUser
  token : Option Tok
  deriving DecidableEq

/-- `loadUser` (AuthContext.js lines 16-65): hydration at startup.
Reads the persisted token; if absent, unauthenticated. If it decodes and
`decoded.exp < Date.now()/1000` the token is expired: `localStorage.removeItem` is
called on the `token` key only, and the state is set unauthenticated. If
decoding throws, the catch block likewise removes only the `token` key.
Otherwise the state becomes authenticated with the decoded subject id and
the persisted username. Returns the updated storage and auth state. -/
def loadUser (st : Storage) (now : Int) : Storage × AuthState :=
  match st.token with
  | none => (st, ⟨false, false, none, none⟩)
  | some tok =>
    match jwtDecode tok with
    | some decoded =>
      if decoded.exp < now then
        ({ st with token := none }, ⟨false, false, none, none⟩)
      else
        (st, ⟨false, true, some ⟨decoded.sub, st.username⟩, some tok⟩)
    | none =>
      ({ st with token := none }, ⟨false, false, none, none⟩)

/-- Successful response body of `POST /login`. -/
structure LoginOk where
  access_token : Tok
  user_id : Nat
  username : String

/-- Outcome of the login request: a response body, or a thrown error whose
`error.response?.data?.message` is the carried option. -/
inductive LoginOutcome where
  | ok (r : LoginOk)
  | err (msg : Option String)

structure LoginResult where
  success : Bool
  message : Option String
  deriving DecidableEq

/-- `login` (AuthContext.js lines 79-103): on success persists token and
username, sets the session authenticated, and returns `success`. On any
thrown error returns a structured failure with the server message or the
generic fallback; storage and auth state are untouched. -/
def login (st : Storage) (a : AuthState) : LoginOutcome → Storage × AuthState × LoginResult
  | .ok r =>
    ({ token := some r.access_token, username := some r.username },
     ⟨false, true, some ⟨r.user_id, some r.username⟩, some r.access_token⟩,
     ⟨true, none⟩)
  | .err m => (st, a, ⟨false, some (jsOr m "Authentication failed")⟩)

/-- `logout` (AuthContext.js lines 118-128): purges both persisted keys and
resets the session, regardless of the previous state. -/
def logoutStep : Storage × AuthState :=
  (⟨none, none⟩, ⟨false, false, none, none⟩)

/-- The provider world: persisted storage plus the in-memory auth state. -/
structure World where
  storage : Storage
  auth : AuthState
  deriving DecidableEq

/-- Initial `useState` value of `AuthProvider` (AuthContext.js lines 8-13):
loading, unauthenticated, but already carrying the raw persisted token. -/
def worldInit (st : Storage) : World :=
  ⟨st, ⟨true, false, none, st.token⟩⟩

/-- Session-store events: hydration completing, a login request settling,
logout, and a registration request settling (which never mutates state). -/
inductive AuthEv where
  | hydrate (now : Int)
  | login (o : LoginOutcome)
  | logout
  | register

def authStep (w : World) : AuthEv → World
  | .hydrate now =>
    let p := loadUser w.storage now
    ⟨p.1, p.2⟩
  | .login o =>
    let p := login w.storage w.auth o
    ⟨p.1, p.2.1⟩
  | .logout => ⟨logoutStep.1, logoutStep.2⟩
  | .register => w

def runAuth (w : World) (evs : List AuthEv) : World :=
  evs.foldl authStep w

inductive AxiosOutcome (α : Type) where
  | ok (data : α)
  | err (responseMessage : Option String)

inductive ApiResult (α : Type) where
  | success (data : α)
  | failure (error : String)
  deriving DecidableEq

/-- The shared try/catch shape of every wrapper in api.js. -/
def apiTry {α : Type} (fallback : String) : AxiosOutcome α → ApiResult α
  | .ok d => .success d
  | .err m => .failure (jsOr m fallback)

/-! Entities, shape as rendered by the screens. -/

structure Company where
  id : Nat
  name : String
  deriving DecidableEq

structure Product where
  id : Nat
  name : String
  company_id : Nat
  image_url : Option String
  deriving DecidableEq

structure Step where
  id : Nat
  name : String
  product_id : Nat
  step_number : Nat
  deriving DecidableEq

structure ClassCount where
  id : Nat
  cls : String
  product_id : Nat
  deriving DecidableEq

structure Img where
  id : Nat
  product_id : Nat
  filename : String
  deriving DecidableEq

/-- Form payload of the companies screen. -/
structure CompanyForm where
  name : String
  deriving DecidableEq

def getCompanies (o : AxiosOutcome (List Company)) : ApiResult (List Company) :=
  apiTry "Failed to fetch companies" o

def createCompany (_company : CompanyForm) (o : AxiosOutcome Company) : ApiResult Company :=
  apiTry "Failed to create company" o

def updateCompany (_id : Nat) (_company : CompanyForm) (o : AxiosOutcome Company) :
    ApiResult Company :=
  apiTry "Failed to update company" o

def deleteCompany (_id : Nat) (o : AxiosOutcome Unit) : ApiResult Unit :=
  apiTry "Failed to delete company" o

structure ProductForm where
  name : String
  company_id : Option Nat
  image_url : String
  deriving DecidableEq

def getProducts (o : AxiosOutcome (List Product)) : ApiResult (List Product) :=
  apiTry "Failed to fetch products" o

def createProduct (_product : ProductForm) (o : AxiosOutcome Product) : ApiResult Product :=
  apiTry "Failed to create product" o

def updateProduct (_id : Nat) (_product : ProductForm) (o : AxiosOutcome Product) :
    ApiResult Product :=
  apiTry "Failed to update product" o

def deleteProduct (_id : Nat) (o : AxiosOutcome Unit) : ApiResult Unit :=
  apiTry "Failed to delete product" o

/-- Form payload of the class counts screen (`class` is a reserved word,
so the field is named `cls`). -/
structure ClassCountForm where
  cls : String
  product_id : Option Nat
  deriving DecidableEq

def getClassCounts (o : AxiosOutcome (List ClassCount)) : ApiResult (List ClassCount) :=
  apiTry "Failed to fetch classes" o

def createClassCount (_c : ClassCountForm) (o : AxiosOutcome ClassCount) :
    ApiResult ClassCount :=
  apiTry "Failed to create class" o

def updateClassCount (_id : Nat) (_c : ClassCountForm) (o : AxiosOutcome ClassCount) :
    ApiResult ClassCount :=
  apiTry "Failed to update class" o

def deleteClassCount (_id : Nat) (o : AxiosOutcome Unit) : ApiResult Unit :=
  apiTry "Failed to delete class" o

/-- `downloadAllImages` (api.js lines 129-165): on success the blob is saved
through a client-side download link and `{success:true, message:'Download
started'}` is returned; any thrown error, including one after the response
arrived, is caught and normalized exactly like the other wrappers. -/
def downloadAllImages (o : AxiosOutcome Unit) : ApiResult String :=
  match o with
  | .ok _ => .success "Download started"
  | .err m => .failure (jsOr m "Failed to download images")

/-- Filename extraction of `downloadAllImages`: taken from the
Content-Disposition header when it matches, else the fixed default. The
regex capture `filename="?([^"]+)"?` is modelled as an optional
already-parsed capture group. -/
def downloadFilename (captured : Option String) : String :=
  match captured with
  | some f => if f = "" then "all_images.zip" else f
  | none => "all_images.zip"

structure StepForm where
  name : String
  product_id : Option Nat
  step_number : Option Nat
  deriving DecidableEq

/-- Modelled from the spec: `getSteps` is imported by the Steps screen from
the service module, but its definition is not among the provided sources.
Per spec section 4.2 each operation returns the server message, else a
generic per-operation fallback. -/
def getSteps (o : AxiosOutcome (List Step)) : ApiResult (List Step) :=
  apiTry "Failed to fetch steps" o

/-- Modelled from the spec: `createStep` is imported by the Steps screen
from the service module, but its definition is not among the provided
sources; same Gateway contract as the other create wrappers. -/
def createStep (_s : StepForm) (o : AxiosOutcome Step) : ApiResult Step :=
  apiTry "Failed to create step" o

/-- Modelled from the spec: `updateStep`, not among the provided sources;
same Gateway contract as the other update wrappers. -/
def updateStep (_id : Nat) (_s : StepForm) (o : AxiosOutcome Step) : ApiResult Step :=
  apiTry "Failed to update step" o

/-- Modelled from the spec: `deleteStep`, not among the provided sources;
same Gateway contract as the other delete wrappers. -/
def deleteStep (_id : Nat) (o : AxiosOutcome Unit) : ApiResult Unit :=
  apiTry "Failed to delete step" o

/-! ## Companies screen (frontend/src/components/Companies.js)

Component state, with a ghost counter `gatewayCalls` incremented exactly
when a service wrapper is invoked, supporting the call-count assertions of
the spec. -/

structure CompaniesState where
  companies : List Company
  loading : Bool
  error : String
  showAddModal : Bool
  showEditModal : Bool
  showDeleteModal : Bool
  formName : String
  currentId : Option Nat
  gatewayCalls : Nat
  deriving DecidableEq

/-- `fetchCompanies` (Companies.js lines 20-31). -/
def fetchCompanies (st : CompaniesState) (o : AxiosOutcome (List Company)) : CompaniesState :=
  let st1 := { st with loading := true, error := "", gatewayCalls := st.gatewayCalls + 1 }
  let st2 :=
    match getCompanies o with
    | .success data => { st1 with companies := data }
    | .failure e => { st1 with error := "Failed to fetch companies: " ++ e }
  { st2 with loading := false }

/-- `handleAdd` (Companies.js lines 62-79): empty trimmed name fails
locally before any service call; otherwise create, and on success a full
`fetchCompanies` refresh. -/
def companiesHandleAdd (st : CompaniesState) (createOut : AxiosOutcome Company)
    (fetchOut : AxiosOutcome (List Company)) : CompaniesState :=
  if jsTrim st.formName = "" then
    { st with error := "Company name is required" }
  else
    let st1 := { st with loading := true, gatewayCalls := st.gatewayCalls + 1 }
    match createCompany ⟨st1.formName⟩ createOut with
    | .success _ =>
      let st2 := fetchCompanies st1 fetchOut
      { st2 with showAddModal := false, formName := "", loading := false }
    | .failure e =>
      { st1 with error := "Error adding company: " ++ e, loading := false }

/-- `handleEdit` (Companies.js lines 81-97). -/
def companiesHandleEdit (st : CompaniesState) (updateOut : AxiosOutcome Company)
    (fetchOut : AxiosOutcome (List Company)) : CompaniesState :=
  if jsTrim st.formName = "" then
    { st with error := "Company name is required" }
  else
    let st1 := { st with loading := true, gatewayCalls := st.gatewayCalls + 1 }
    match updateCompany (st1.currentId.getD 0) ⟨st1.formName⟩ updateOut with
    | .success _ =>
      let st2 := fetchCompanies st1 fetchOut
      { st2 with showEditModal := false, loading := false }
    | .failure e =>
      { st1 with error := "Error updating company: " ++ e, loading := false }

/-- `handleDelete` (Companies.js lines 99-110). -/
def companiesHandleDelete (st : CompaniesState) (deleteOut : AxiosOutcome Unit)
    (fetchOut : AxiosOutcome (List Company)) : CompaniesState :=
  let st1 := { st with loading := true, gatewayCalls := st.gatewayCalls + 1 }
  match deleteCompany (st1.currentId.getD 0) deleteOut with
  | .success _ =>
    let st2 := fetchCompanies st1 fetchOut
    { st2 with showDeleteModal := false, loading := false }
  | .failure e =>
    { st1 with error := "Error deleting company: " ++ e, loading := false }

/-! ## Products screen (frontend/src/components/Products.js) -/

structure ProductsState where
  products : List Product
  companies : List Company
  loading : Bool
  error : String
  showAddModal : Bool
  showEditModal : Bool
  showDeleteModal : Bool
  formName : String
  formCompanyId : Option Nat
  formImageUrl : String
  currentId : Option Nat
  gatewayCalls : Nat
  deriving DecidableEq

/-- `fetchData` (Products.js lines 22-45): products and companies fetched
in parallel, each settling its own slice of the state. -/
def productsFetchData (st : ProductsState) (pOut : AxiosOutcome (List Product))
    (cOut : AxiosOutcome (List Company)) : ProductsState :=
  let st1 := { st with loading := true, error := "", gatewayCalls := st.gatewayCalls + 2 }
  let st2 :=
    match getProducts pOut with
    | .success d => { st1 with products := d }
    | .failure e => { st1 with error := "Failed to fetch products: " ++ e }
  let st3 :=
    match getCompanies cOut with
    | .success d => { st2 with companies := d }
    | .failure e => { st2 with error := st2.error ++ " Failed to fetch companies: " ++ e }
  { st3 with loading := false }

/-- `handleAdd` (Products.js lines 81-103): empty trimmed name, then a
falsy `company_id` (absent foreign key), each fail locally before any
service call. -/
def productsHandleAdd (st : ProductsState) (createOut : AxiosOutcome Product)
    (pOut : AxiosOutcome (List Product)) (cOut : AxiosOutcome (List Company)) :
    ProductsState :=
  if jsTrim st.formName = "" then
    { st with error := "Product name is required" }
  else if st.formCompanyId = none then
    { st with error := "Company is required" }
  else
    let st1 := { st with loading := true, gatewayCalls := st.gatewayCalls + 1 }
    match createProduct ⟨st1.formName, st1.formCompanyId, st1.formImageUrl⟩ createOut with
    | .success _ =>
      let st2 := productsFetchData st1 pOut cOut
      { st2 with showAddModal := false, formName := "", formCompanyId := none,
                 formImageUrl := "", loading := false }
    | .failure e =>
      { st1 with error := "Error adding product: " ++ e, loading := false }

/-- `handleEdit` (Products.js lines 105-126): same validations as
`handleAdd`, then an update followed by a full refresh. -/
def productsHandleEdit (st : ProductsState) (updateOut : AxiosOutcome Product)
    (pOut : AxiosOutcome (List Product)) (cOut : AxiosOutcome (List Company)) :
    ProductsState :=
  if jsTrim st.formName = "" then
    { st with error := "Product name is required" }
  else if st.formCompanyId = none then
    { st with error := "Company is required" }
  else
    let st1 := { st with loading := true, gatewayCalls := st.gatewayCalls + 1 }
    match updateProduct (st1.currentId.getD 0)
        ⟨st1.formName, st1.formCompanyId, st1.formImageUrl⟩ updateOut with
    | .success _ =>
      let st2 := productsFetchData st1 pOut cOut
      { st2 with showEditModal := false, loading := false }
    | .failure e =>
      { st1 with error := "Error updating product: " ++ e, loading := false }

/-- `handleDelete` (Products.js lines 128-139). -/
def productsHandleDelete (st : ProductsState) (deleteOut : AxiosOutcome Unit)
    (pOut : AxiosOutcome (List Product)) (cOut : AxiosOutcome (List Company)) :
    ProductsState :=
  let st1 := { st with loading := true, gatewayCalls := st.gatewayCalls + 1 }
  match deleteProduct (st1.currentId.getD 0) deleteOut with
  | .success _ =>
    let st2 := productsFetchData st1 pOut cOut
    { st2 with showDeleteModal := false, loading := false }
  | .failure e =>
    { st1 with error := "Error deleting product: " ++ e, loading := false }

/-! ## Steps screen (unnamed source part, `Steps` component) -/

structure StepsState where
  steps : List Step
  products : List Product
  loading : Bool
  error : String
  formName : String
  formProductId : Option Nat
  formStepNumber : Option Nat
  currentStepId : Option Nat
  gatewayCalls : Nat
  deriving DecidableEq

/-- `getAvailableStepNumbers(productId, excludeStepId)`: the step numbers
in 1..20 not used by another step of the same product, excluding the step
being edited; a falsy product id yields the empty list. `step.id !==
excludeStepId` is true whenever `excludeStepId` is null. -/
def getAvailableStepNumbers (steps : List Step) (productId : Option Nat)
    (excludeStepId : Option Nat) : List Nat :=
  match productId with
  | none => []
  | some pid =>
    let usedStepNumbers :=
      (steps.filter (fun s => s.product_id == pid && !(excludeStepId == some s.id))).map
        (fun s => s.step_number)
    ((List.range 20).map (fun i => i + 1)).filter (fun n => !(usedStepNumbers.contains n))

/-- The Add Step submit button (Add modal footer): disabled while loading,
or when a product is chosen and no step numbers remain for it. -/
def stepAddButtonDisabled (loading : Bool) (steps : List Step)
    (productId : Option Nat) : Bool :=
  loading || (productId.isSome && (getAvailableStepNumbers steps productId none).length == 0)

/-- The explanatory text under the step-number select: shown exactly when a
product is chosen and all positions 1-20 are taken for it. Its content is
`stepsBlockedMessage`. -/
def stepAddBlockedMessageShown (steps : List Step) (productId : Option Nat) : Bool :=
  productId.isSome && (getAvailableStepNumbers steps productId none).length == 0

def stepsBlockedMessage : String :=
  "All step positions (1-20) are taken for this product"

/-- `fetchData` of the Steps screen: steps and products fetched in
parallel. -/
def stepsFetchData (st : StepsState) (sOut : AxiosOutcome (List Step))
    (pOut : AxiosOutcome (List Product)) : StepsState :=
  let st1 := { st with loading := true, error := "", gatewayCalls := st.gatewayCalls + 2 }
  let st2 :=
    match getSteps sOut with
    | .success d => { st1 with steps := d }
    | .failure e => { st1 with error := "Failed to fetch steps: " ++ e }
  let st3 :=
    match getProducts pOut with
    | .success d => { st2 with products := d }
    | .failure e => { st2 with error := st2.error ++ " Failed to fetch products: " ++ e }
  { st3 with loading := false }

/-- `handleAdd` of the Steps screen: name, product, and step number are
each required locally before any service call; on success a full refresh. -/
def stepsHandleAdd (st : StepsState) (createOut : AxiosOutcome Step)
    (sOut : AxiosOutcome (List Step)) (pOut : AxiosOutcome (List Product)) : StepsState :=
  if jsTrim st.formName = "" then
    { st with error := "Step name is required" }
  else if st.formProductId = none then
    { st with error := "Product is required" }
  else if st.formStepNumber = none then
    { st with error := "Step number is required" }
  else
    let st1 := { st with loading := true, gatewayCalls := st.gatewayCalls + 1 }
    match createStep ⟨st1.formName, st1.formProductId, st1.formStepNumber⟩ createOut with
    | .success _ =>
      let st2 := stepsFetchData st1 sOut pOut
      { st2 with formName := "", formProductId := none, formStepNumber := some 1,
                 loading := false }
    | .failure e =>
      { st1 with error := "Error adding step: " ++ e, loading := false }

/-- `handleEdit` of the Steps screen: same three validations as
`handleAdd`, then an update of the current step followed by a full
refresh. -/
def stepsHandleEdit (st : StepsState) (updateOut : AxiosOutcome Step)
    (sOut : AxiosOutcome (List Step)) (pOut : AxiosOutcome (List Product)) : StepsState :=
  if jsTrim st.formName = "" then
    { st with error := "Step name is required" }
  else if st.formProductId = none then
    { st with error := "Product is required" }
  else if st.formStepNumber = none then
    { st with error := "Step number is required" }
  else
    let st1 := { st with loading := true, gatewayCalls := st.gatewayCalls + 1 }
    match updateStep (st1.currentStepId.getD 0)
        ⟨st1.formName, st1.formProductId, st1.formStepNumber⟩ updateOut with
    | .success _ =>
      let st2 := stepsFetchData st1 sOut pOut
      { st2 with loading := false }
    | .failure e =>
      { st1 with error := "Error updating step: " ++ e, loading := false }

/-- `handleDelete` of the Steps screen. -/
def stepsHandleDelete (st : StepsState) (deleteOut : AxiosOutcome Unit)
    (sOut : AxiosOutcome (List Step)) (pOut : AxiosOutcome (List Product)) : StepsState :=
  let st1 := { st with loading := true, gatewayCalls := st.gatewayCalls + 1 }
  match deleteStep (st1.currentStepId.getD 0) deleteOut with
  | .success _ =>
    let st2 := stepsFetchData st1 sOut pOut
    { st2 with loading := false }
  | .failure e =>
    { st1 with error := "Error deleting step: " ++ e, loading := false }

/-! ## Class counts screen (frontend/src/components/ClassCounts.js) -/

structure ClassCountsState where
  classCounts : List ClassCount
  products : List Product
  loading : Bool
  error : String
  showAddModal : Bool
  showEditModal : Bool
  showDeleteModal : Bool
  formClass : String
  formProductId : Option Nat
  currentId : Option Nat
  gatewayCalls : Nat
  deriving DecidableEq

/-- `fetchData` (ClassCounts.js lines 21-43): class counts and products
fetched in parallel. -/
def classCountsFetchData (st : ClassCountsState)
    (ccOut : AxiosOutcome (List ClassCount)) (pOut : AxiosOutcome (List Product)) :
    ClassCountsState :=
  let st1 := { st with loading := true, error := "", gatewayCalls := st.gatewayCalls + 2 }
  let st2 :=
    match getClassCounts ccOut with
    | .success d => { st1 with classCounts := d }
    | .failure e => { st1 with error := "Failed to fetch class counts: " ++ e }
  let st3 :=
    match getProducts pOut with
    | .success d => { st2 with products := d }
    | .failure e => { st2 with error := st2.error ++ " Failed to fetch products: " ++ e }
  { st3 with loading := false }

/-- `handleAdd` (ClassCounts.js lines 78-100): empty trimmed class name,
then a falsy `product_id`, each fail locally before any service call; on
success a full refresh. -/
def classCountsHandleAdd (st : ClassCountsState) (createOut : AxiosOutcome ClassCount)
    (ccOut : AxiosOutcome (List ClassCount)) (pOut : AxiosOutcome (List Product)) :
    ClassCountsState :=
  if jsTrim st.formClass = "" then
    { st with error := "Class is required" }
  else if st.formProductId = none then
    { st with error := "Product is required" }
  else
    let st1 := { st with loading := true, gatewayCalls := st.gatewayCalls + 1 }
    match createClassCount ⟨st1.formClass, st1.formProductId⟩ createOut with
    | .success _ =>
      let st2 := classCountsFetchData st1 ccOut pOut
      { st2 with showAddModal := false, formClass := "", formProductId := none,
                 loading := false }
    | .failure e =>
      { st1 with error := "Error adding class: " ++ e, loading := false }

/-- `handleEdit` (ClassCounts.js lines 102-123): same validations, then an
update of the current class count followed by a full refresh. -/
def classCountsHandleEdit (st : ClassCountsState) (updateOut : AxiosOutcome ClassCount)
    (ccOut : AxiosOutcome (List ClassCount)) (pOut : AxiosOutcome (List Product)) :
    ClassCountsState :=
  if jsTrim st.formClass = "" then
    { st with error := "Class is required" }
  else if st.formProductId = none then
    { st with error := "Product is required" }
  else
    let st1 := { st with loading := true, gatewayCalls := st.gatewayCalls + 1 }
    match updateClassCount (st1.currentId.getD 0)
        ⟨st1.formClass, st1.formProductId⟩ updateOut with
    | .success _ =>
      let st2 := classCountsFetchData st1 ccOut pOut
      { st2 with showEditModal := false, loading := false }
    | .failure e =>
      { st1 with error := "Error updating class: " ++ e, loading := false }

/-- `handleDelete` (ClassCounts.js lines 125-136). -/
def classCountsHandleDelete (st : ClassCountsState) (deleteOut : AxiosOutcome Unit)
    (ccOut : AxiosOutcome (List ClassCount)) (pOut : AxiosOutcome (List Product)) :
    ClassCountsState :=
  let st1 := { st with loading := true, gatewayCalls := st.gatewayCalls + 1 }
  match deleteClassCount (st1.currentId.getD 0) deleteOut with
  | .success _ =>
    let st2 := classCountsFetchData st1 ccOut pOut
    { st2 with showDeleteModal := false, loading := false }
  | .failure e =>
    { st1 with error := "Error deleting class: " ++ e, loading := false }

/-! ## Image manager page (unnamed source part, `ImageManagerPage`) -/

/-- `handleDelete(id)` of ImageManagerPage: after the confirm dialog, a raw
axios DELETE; on success the LOCAL list is patched with a filter (no
refetch); on a thrown error only a message is set. Returns the new images
list and the message set, if any. -/
def imageManagerHandleDelete (confirmed : Bool) (images : List Img) (id : Nat)
    (deleteOut : AxiosOutcome Unit) : List Img × Option String :=
  if !confirmed then (images, none)
  else
    match deleteOut with
    | .ok _ => (images.filter (fun img => img.id ≠ id), none)
    | .err _ => (images, some "Failed to delete image.")

/-- `refreshImages` of ImageManagerPage: a full refetch of the company
images, replacing the list wholesale. -/
def imageManagerRefreshImages (selectedCompany : Option Nat) (images : List Img)
    (fetchOut : AxiosOutcome (List Img)) : List Img × Option String :=
  match selectedCompany with
  | none => (images, none)
  | some _ =>
    match fetchOut with
    | .ok data => (data, none)
    | .err _ => (images, some "Failed to refresh images.")

/-! ## CaptureImage upload handler (second component of the Companies.js
source file) -/

/-- The thrown upload error: `err.response.data.error` when the server
answered with an error body, and the client-side `err.message`. -/
structure UploadErr where
  responseError : Option String
  message : Option String
  deriving DecidableEq

structure CaptureState where
  imgSrc : Option String
  message : String
  refreshCalled : Bool
  deriving DecidableEq

def listPrefix : List Char → List Char → Bool
  | [], _ => true
  | _ :: _, [] => false
  | a :: as, b :: bs => a == b && listPrefix as bs

def listInfix (pat : List Char) : List Char → Bool
  | [] => listPrefix pat []
  | c :: rest => listPrefix pat (c :: rest) || listInfix pat rest

/-- Case-insensitive JavaScript `msg.toLowerCase().includes("network")`. -/
def mentionsNetwork (msg : String) : Bool :=
  listInfix "network".toList (msg.toList.map Char.toLower)

/-- The catch block of `handleUpload` (CaptureImage, Companies.js source
lines 325-342): a truthy server error body is reported as failure; else a
truthy `err.message` containing "network" (case-insensitive) is treated as
success with a warning, clearing the captured image and firing the refresh
callback; every other error is reported as a generic failure. -/
def captureHandleUploadErr (st : CaptureState) (e : UploadErr) : CaptureState :=
  if jsTruthy e.responseError then
    { st with message := "Upload failed: " ++ (e.responseError.getD "") }
  else if jsTruthy e.message && mentionsNetwork (e.message.getD "") then
    { st with
        message := "Image uploaded successfully! (network error, but likely succeeded)",
        imgSrc := none,
        refreshCalled := true }
  else
    { st with message := "Upload failed (network or unknown error)." }

/-- The success path of `handleUpload`: success message, captured image
cleared, refresh callback fired. -/
def captureHandleUploadOk (st : CaptureState) : CaptureState :=
  { st with message := "Image uploaded successfully!", imgSrc := none, refreshCalled := true }

/-! ## ProjectCreator single-flight guard
(frontend/src/components/ProjectCreator.js lines 63-123)

The controller state tracks the two refs (`isCreatingRef`,
`abortControllerRef`), the `loading` state, and ghost counters for abort
requests, successful completions, and ignored invocations. Events are a
click on the create button and the in-flight request settling. -/

structure PCState where
  loading : Bool
  isCreating : Bool
  hasController : Bool
  currentAborted : Bool
  selectedProduct : Option Nat
  aborts : Nat
  completions : Nat
  ignored : Nat
  deriving DecidableEq

/-- A `createProject` invocation: no product selected is an error; while
`loading || isCreatingRef.current` the invocation returns at once
(ignored); otherwise any previous controller is told to abort, a fresh
controller is installed, and the request starts. -/
def pcClick (s : PCState) : PCState :=
  match s.selectedProduct with
  | none => s
  | some _ =>
    if s.loading || s.isCreating then
      { s with ignored := s.ignored + 1 }
    else
      let s1 :=
        if s.hasController then { s with aborts := s.aborts + 1, currentAborted := true }
        else s
      { s1 with hasController := true, currentAborted := false,
                isCreating := true, loading := true }

/-- The in-flight request resolving successfully: the success state update
is skipped when the current controller was aborted; the finally block
clears loading, the creating ref, and the controller ref. -/
def pcSettleOk (s : PCState) : PCState :=
  if s.isCreating then
    let s1 := if s.currentAborted then s else { s with completions := s.completions + 1 }
    { s1 with loading := false, isCreating := false,
              hasController := false, currentAborted := false }
  else s

/-- The in-flight request rejecting (abort or failure): the finally block
still clears loading, the creating ref, and the controller ref. -/
def pcSettleErr (s : PCState) : PCState :=
  if s.isCreating then
    { s with loading := false, isCreating := false,
             hasController := false, currentAborted := false }
  else s

inductive PCEv where
  | click
  | settleOk
  | settleErr
  deriving DecidableEq

def pcStep (s : PCState) : PCEv → PCState
  | .click => pcClick s
  | .settleOk => pcSettleOk s
  | .settleErr => pcSettleErr s

def pcRun (s : PCState) (evs : List PCEv) : PCState :=
  evs.foldl pcStep s

/-- Controller state at mount with a product already selected. -/
def pcInit : PCState :=
  ⟨false, false, false, false, some 1, 0, 0, 0⟩

/-! # Theorems -/

/-! Helper lemmas about the session store. -/

/-- The data-model invariant of an authenticated or unauthenticated
session state. -/
def sessionInvariant (a : AuthState) : Prop :=
  (a.isAuthenticated = true → a.token ≠ none ∧ a.user ≠ none) ∧
  (a.isAuthenticated = false → a.token = none ∧ a.user = none)

theorem sessionInvariant_unauth : sessionInvariant ⟨false, false, none, none⟩ := by
  simp [sessionInvariant]

theorem sessionInvariant_auth (u : AuthUser) (t : Tok) :
    sessionInvariant ⟨false, true, some u, some t⟩ := by
  simp [sessionInvariant]

theorem loadUser_sessionInvariant (st : Storage) (now : Int) :
    sessionInvariant (loadUser st now).2 := by
  rcases hst : st.token with _ | tok <;> simp only [loadUser, hst]
  · exact sessionInvariant_unauth
  rcases hd : jwtDecode tok with _ | d <;> simp only [hd]
  · exact sessionInvariant_unauth
  by_cases h : d.exp < now <;> simp only [h, reduceIte]
  · exact sessionInvariant_unauth
  · exact sessionInvariant_auth _ _

theorem authStep_sessionInvariant (w : World) (e : AuthEv)
    (h : w.auth.loading = false → sessionInvariant w.auth) :
    (authStep w e).auth.loading = false → sessionInvariant (authStep w e).auth := by
  cases e with
  | hydrate now => intro _; exact loadUser_sessionInvariant w.storage now
  | login o => cases o with
    | ok r => intro _; exact sessionInvariant_auth _ _
    | err m => exact h
  | logout => intro _; exact sessionInvariant_unauth
  | register => exact h

theorem runAuth_sessionInvariant (evs : List AuthEv) (w : World)
    (h : w.auth.loading = false → sessionInvariant w.auth) :
    (runAuth w evs).auth.loading = false → sessionInvariant (runAuth w evs).auth := by
  induction evs generalizing w with
  | nil => exact h
  | cons e rest ih => exact ih (authStep w e) (authStep_sessionInvariant w e h)

/-! ## Claim C1 -/

/-- Claim C1 as stated: for every persisted token whose embedded expiry is
at or before the current time, and for every persisted token that fails to
decode, `loadUser` results in an unauthenticated state and purges BOTH the
persisted token and the persisted username. -/
def claimC1 : Prop :=
  ∀ (st : Storage) (now : Int) (tok : Tok),
    st.token = some tok →
    (∀ d, jwtDecode tok = some d → d.exp ≤ now) →
    (loadUser st now).2.isAuthenticated = false ∧
    (loadUser st now).1.token = none ∧
    (loadUser st now).1.username = none

/-- Claim C1 is false on the code: at storage `{token: jwt with exp 100
and sub 7, username: "alice"}` and current time 200 the token is expired
and removed, but the persisted username survives hydration; moreover at
current time exactly 100 (expiry equal to now) the code treats the token
as still valid, because the comparison is strict (`decoded.exp <
currentTime`). -/
theorem c1_counterexample : ¬ claimC1 := by
  intro h
  have h2 := h ⟨some (Tok.jwt 100 7), some "alice"⟩ 200 (Tok.jwt 100 7) rfl
    (by
      intro d hd
      rcases d with ⟨e, s⟩
      simp only [jwtDecode, Option.some.injEq, DecodedJwt.mk.injEq] at hd
      obtain ⟨h1, h2⟩ := hd
      show e ≤ 200
      omega)
  exact absurd h2.2.2 (by decide)

/-- Claim C1 amended: for every persisted token that fails to decode or
whose embedded expiry is STRICTLY before the current time, hydration
yields the unauthenticated state and removes the persisted token; the
persisted username is left untouched. -/
theorem c1_amended (st : Storage) (now : Int) (tok : Tok)
    (htok : st.token = some tok)
    (hbad : jwtDecode tok = none ∨ ∃ d, jwtDecode tok = some d ∧ d.exp < now) :
    (loadUser st now).2 = ⟨false, false, none, none⟩ ∧
    (loadUser st now).1.token = none ∧
    (loadUser st now).1.username = st.username := by
  rcases hbad with hnone | ⟨d, hd, hlt⟩
  · simp [loadUser, htok, hnone]
  · simp [loadUser, htok, hd, hlt]

theorem c1_witness :
    (loadUser ⟨some (Tok.jwt 100 7), some "alice"⟩ 200).2 = ⟨false, false, none, none⟩ ∧
    (loadUser ⟨some (Tok.jwt 100 7), some "alice"⟩ 200).1.token = none ∧
    (loadUser ⟨some (Tok.jwt 100 7), some "alice"⟩ 200).1.username = some "alice" :=
  c1_amended ⟨some (Tok.jwt 100 7), some "alice"⟩ 200 (Tok.jwt 100 7) rfl
    (Or.inr ⟨⟨100, 7⟩, rfl, by decide⟩)

/-! ## Claim C6 -/

/-- Claim C6 (confirmed): the concrete login scenario — credentials
accepted by a backend answering `{access_token:"T", user_id:1,
username:"alice"}` — produces the authenticated session
`{isAuthenticated:true, user:{id:1, username:"alice"}, token:"T"}` and
persists both the token and the username; and every failed login leaves
storage and session untouched and returns a structured failure whose
message is the server message when a nonempty one exists, else the
generic "Authentication failed" (the function is total: no failure
escapes as an exception). -/
theorem c6_login_behaviour :
    (login ⟨none, none⟩ ⟨false, false, none, none⟩
        (.ok ⟨Tok.raw "T", 1, "alice"⟩) =
      (⟨some (Tok.raw "T"), some "alice"⟩,
       ⟨false, true, some ⟨1, some "alice"⟩, some (Tok.raw "T")⟩,
       ⟨true, none⟩)) ∧
    (∀ (st : Storage) (a : AuthState) (m : Option String),
      (login st a (.err m)).1 = st ∧
      (login st a (.err m)).2.1 = a ∧
      (login st a (.err m)).2.2.success = false ∧
      (m = none → (login st a (.err m)).2.2.message = some "Authentication failed") ∧
      (∀ s, m = some s → s ≠ "" → (login st a (.err m)).2.2.message = some s)) := by
  refine ⟨rfl, ?_⟩
  intro st a m
  refine ⟨rfl, rfl, rfl, ?_, ?_⟩
  · intro hm; subst hm; rfl
  · intro s hm hne; subst hm; simp [login, jsOr, hne]

theorem c6_witness :
    (login ⟨none, none⟩ ⟨false, false, none, none⟩
        (.err (some "Bad credentials"))).2.2.message = some "Bad credentials" :=
  ((c6_login_behaviour.2 ⟨none, none⟩ ⟨false, false, none, none⟩
      (some "Bad credentials")).2.2.2.2) "Bad credentials" rfl (by decide)

/-! ## Claim C9 -/

/-- Claim C10 (confirmed): every session state reachable by any sequence
of hydrate, login, logout, and register events, once its `loading` flag is
false, ties `isAuthenticated` to the presence of the token and the user
(authenticated implies both present, unauthenticated implies both null);
the initial pre-hydration state violates this, carrying the raw persisted
token while unauthenticated. -/
theorem c10_session_invariant :
    (∀ (st : Storage) (evs : List AuthEv),
      (runAuth (worldInit st) evs).auth.loading = false →
      sessionInvariant (runAuth (worldInit st) evs).auth) ∧
    ((worldInit ⟨some (Tok.raw "T"), none⟩).auth.loading = true ∧
     (worldInit ⟨some (Tok.raw "T"), none⟩).auth.isAuthenticated = false ∧
     (worldInit ⟨some (Tok.raw "T"), none⟩).auth.token ≠ none) := by
  constructor
  · intro st evs
    exact runAuth_sessionInvariant evs (worldInit st) (by intro h; cases h)
  · exact ⟨rfl, rfl, by decide⟩

theorem c10_witness :
    sessionInvariant (runAuth (worldInit ⟨some (Tok.jwt 100 7), some "alice"⟩)
      [AuthEv.hydrate 50]).auth :=
  c10_session_invariant.1 ⟨some (Tok.jwt 100 7), some "alice"⟩ [AuthEv.hydrate 50]
    (by decide)

/-! ## Claim C7 -/

/-- The normalized result contract of a Gateway operation: the outcome
data on success, and on any thrown failure a structured failure carrying
the server-provided message when a truthy one exists, else the fixed
per-operation fallback. -/
def resultShape {α : Type} (r : ApiResult α) (fallback : String)
    (o : AxiosOutcome α) : Prop :=
  match o with
  | .ok d => r = .success d
  | .err m => r = .failure (jsOr m fallback)

theorem apiTry_resultShape {α : Type} (fallback : String) (o : AxiosOutcome α) :
    resultShape (apiTry fallback o) fallback o := by
  cases o <;> rfl

/-- Claim C7 (confirmed): every Gateway operation — the CRUD wrappers for
companies, products, steps, and classes, and the bulk download — is a
total function of the request outcome (no exception escapes past it), and
on any failure returns the structured `{success:false, error}` shape
whose message is the server-provided one when truthy, else that
operation's fixed fallback. The step wrappers are the spec-modelled ones,
their definitions being absent from the provided service module. -/
theorem c7_gateway_normalizes :
    (∀ o, resultShape (getCompanies o) "Failed to fetch companies" o) ∧
    (∀ f o, resultShape (createCompany f o) "Failed to create company" o) ∧
    (∀ i f o, resultShape (updateCompany i f o) "Failed to update company" o) ∧
    (∀ i o, resultShape (deleteCompany i o) "Failed to delete company" o) ∧
    (∀ o, resultShape (getProducts o) "Failed to fetch products" o) ∧
    (∀ f o, resultShape (createProduct f o) "Failed to create product" o) ∧
    (∀ i f o, resultShape (updateProduct i f o) "Failed to update product" o) ∧
    (∀ i o, resultShape (deleteProduct i o) "Failed to delete product" o) ∧
    (∀ o, resultShape (getSteps o) "Failed to fetch steps" o) ∧
    (∀ f o, resultShape (createStep f o) "Failed to create step" o) ∧
    (∀ i f o, resultShape (updateStep i f o) "Failed to update step" o) ∧
    (∀ i o, resultShape (deleteStep i o) "Failed to delete step" o) ∧
    (∀ o, resultShape (getClassCounts o) "Failed to fetch classes" o) ∧
    (∀ c o, resultShape (createClassCount c o) "Failed to create class" o) ∧
    (∀ i c o, resultShape (updateClassCount i c o) "Failed to update class" o) ∧
    (∀ i o, resultShape (deleteClassCount i o) "Failed to delete class" o) ∧
    (downloadAllImages (.ok ()) = ApiResult.success "Download started") ∧
    (∀ m, downloadAllImages (.err m) = ApiResult.failure (jsOr m "Failed to download images")) :=
  ⟨fun o => apiTry_resultShape _ o,
   fun _ o => apiTry_resultShape _ o,
   fun _ _ o => apiTry_resultShape _ o,
   fun _ o => apiTry_resultShape _ o,
   fun o => apiTry_resultShape _ o,
   fun _ o => apiTry_resultShape _ o,
   fun _ _ o => apiTry_resultShape _ o,
   fun _ o => apiTry_resultShape _ o,
   fun o => apiTry_resultShape _ o,
   fun _ o => apiTry_resultShape _ o,
   fun _ _ o => apiTry_resultShape _ o,
   fun _ o => apiTry_resultShape _ o,
   fun o => apiTry_resultShape _ o,
   fun _ o => apiTry_resultShape _ o,
   fun _ _ o => apiTry_resultShape _ o,
   fun _ o => apiTry_resultShape _ o,
   rfl,
   fun _ => rfl⟩

/-! ## Claim C3 -/

/-- Claim C3 (confirmed): every entity creation whose input is missing a
required field — an empty trimmed name on the companies, products, steps,
or classes screen, or an absent required foreign key or step number —
fails locally with the exact message the source sets, leaving the rest of
the state (including the ghost count of Gateway invocations) untouched:
zero Gateway calls are made, whatever the would-be request outcomes
were. -/
theorem c3_validation_blocks_gateway :
    (∀ (st : CompaniesState) (o1 : AxiosOutcome Company)
        (o2 : AxiosOutcome (List Company)),
      jsTrim st.formName = "" →
      companiesHandleAdd st o1 o2 = { st with error := "Company name is required" } ∧
      (companiesHandleAdd st o1 o2).gatewayCalls = st.gatewayCalls) ∧
    (∀ (st : ProductsState) (o1 : AxiosOutcome Product)
        (o2 : AxiosOutcome (List Product)) (o3 : AxiosOutcome (List Company)),
      jsTrim st.formName = "" →
      productsHandleAdd st o1 o2 o3 = { st with error := "Product name is required" } ∧
      (productsHandleAdd st o1 o2 o3).gatewayCalls = st.gatewayCalls) ∧
    (∀ (st : ProductsState) (o1 : AxiosOutcome Product)
        (o2 : AxiosOutcome (List Product)) (o3 : AxiosOutcome (List Company)),
      jsTrim st.formName ≠ "" → st.formCompanyId = none →
      productsHandleAdd st o1 o2 o3 = { st with error := "Company is required" } ∧
      (productsHandleAdd st o1 o2 o3).gatewayCalls = st.gatewayCalls) ∧
    (∀ (st : StepsState) (o1 : AxiosOutcome Step)
        (o2 : AxiosOutcome (List Step)) (o3 : AxiosOutcome (List Product)),
      jsTrim st.formName = "" →
      stepsHandleAdd st o1 o2 o3 = { st with error := "Step name is required" } ∧
      (stepsHandleAdd st o1 o2 o3).gatewayCalls = st.gatewayCalls) ∧
    (∀ (st : StepsState) (o1 : AxiosOutcome Step)
        (o2 : AxiosOutcome (List Step)) (o3 : AxiosOutcome (List Product)),
      jsTrim st.formName ≠ "" → st.formProductId = none →
      stepsHandleAdd st o1 o2 o3 = { st with error := "Product is required" } ∧
      (stepsHandleAdd st o1 o2 o3).gatewayCalls = st.gatewayCalls) ∧
    (∀ (st : StepsState) (o1 : AxiosOutcome Step)
        (o2 : AxiosOutcome (List Step)) (o3 : AxiosOutcome (List Product)),
      jsTrim st.formName ≠ "" → st.formProductId ≠ none → st.formStepNumber = none →
      stepsHandleAdd st o1 o2 o3 = { st with error := "Step number is required" } ∧
      (stepsHandleAdd st o1 o2 o3).gatewayCalls = st.gatewayCalls) ∧
    (∀ (st : ClassCountsState) (o1 : AxiosOutcome ClassCount)
        (o2 : AxiosOutcome (List ClassCount)) (o3 : AxiosOutcome (List Product)),
      jsTrim st.formClass = "" →
      classCountsHandleAdd st o1 o2 o3 = { st with error := "Class is required" } ∧
      (classCountsHandleAdd st o1 o2 o3).gatewayCalls = st.gatewayCalls) ∧
    (∀ (st : ClassCountsState) (o1 : AxiosOutcome ClassCount)
        (o2 : AxiosOutcome (List ClassCount)) (o3 : AxiosOutcome (List Product)),
      jsTrim st.formClass ≠ "" → st.formProductId = none →
      classCountsHandleAdd st o1 o2 o3 = { st with error := "Product is required" } ∧
      (classCountsHandleAdd st o1 o2 o3).gatewayCalls = st.gatewayCalls) := by
  refine ⟨?_, ?_, ?_, ?_, ?_, ?_, ?_, ?_⟩
  · intro st o1 o2 h
    constructor <;> simp [companiesHandleAdd, h]
  · intro st o1 o2 o3 h
    constructor <;> simp [productsHandleAdd, h]
  · intro st o1 o2 o3 h hfk
    constructor <;> simp [productsHandleAdd, h, hfk]
  · intro st o1 o2 o3 h
    constructor <;> simp [stepsHandleAdd, h]
  · intro st o1 o2 o3 h hfk
    constructor <;> simp [stepsHandleAdd, h, hfk]
  · intro st o1 o2 o3 h hfk hsn
    constructor <;> simp [stepsHandleAdd, h, hfk, hsn]
  · intro st o1 o2 o3 h
    constructor <;> simp [classCountsHandleAdd, h]
  · intro st o1 o2 o3 h hfk
    constructor <;> simp [classCountsHandleAdd, h, hfk]

/-- The concrete scenario: creating a company with name "" yields the
failure message "Company name is required" and zero Gateway calls. -/
theorem c3_witness :
    (companiesHandleAdd ⟨[], false, "", false, false, false, "", none, 0⟩
        (.err none) (.err none)).error = "Company name is required" ∧
    (companiesHandleAdd ⟨[], false, "", false, false, false, "", none, 0⟩
        (.err none) (.err none)).gatewayCalls = 0 := by
  have h := c3_validation_blocks_gateway.1
    ⟨[], false, "", false, false, false, "", none, 0⟩ (.err none) (.err none) (by decide)
  exact ⟨by rw [h.1], h.2⟩

/-! ## Claim C2 -/

/-- Claim C2 as stated: after ANY successful mutation on ANY entity
collection the client manages, the resulting local collection equals
whatever an independent list call would return from the server. For the
screens that refetch, the post-mutation fetch result is the independent
list result; for the image manager delete, the independent list result is
any server list no longer containing the deleted id (the server may have
changed in other ways in between). -/
def claimC2 : Prop :=
  (∀ (st : CompaniesState) (c : Company) (srv : List Company),
    jsTrim st.formName ≠ "" →
    (companiesHandleAdd st (.ok c) (.ok srv)).companies = srv) ∧
  (∀ (st : CompaniesState) (c : Company) (srv : List Company),
    jsTrim st.formName ≠ "" →
    (companiesHandleEdit st (.ok c) (.ok srv)).companies = srv) ∧
  (∀ (st : CompaniesState) (srv : List Company),
    (companiesHandleDelete st (.ok ()) (.ok srv)).companies = srv) ∧
  (∀ (images srv : List Img) (id : Nat),
    id ∉ srv.map Img.id →
    (imageManagerHandleDelete true images id (.ok ())).1 = srv)

/-- Claim C2 is false on the code: the image manager's delete patches the
local list instead of refetching. Concretely, with local images `[id 1]`
and a successful delete of id 1 while the server's list has meanwhile
become `[id 2]`, the local collection is `[]` but an independent list
call returns `[id 2]`. -/
theorem c2_counterexample : ¬ claimC2 := by
  intro h
  have h2 := h.2.2.2 [⟨1, 10, "a"⟩] [⟨2, 10, "b"⟩] 1 (by decide)
  exact absurd h2 (by decide)

/-- Claim C2 amended: the Companies, Products, Steps, and ClassCounts
screens do refresh after every successful create, update, and delete, so
their collection equals the post-mutation fetch result; the image
manager's delete instead patches the local list, filtering out the
deleted id without contacting the server. -/
theorem c2_amended :
    (∀ (st : CompaniesState) (c : Company) (srv : List Company),
      jsTrim st.formName ≠ "" →
      (companiesHandleAdd st (.ok c) (.ok srv)).companies = srv) ∧
    (∀ (st : CompaniesState) (c : Company) (srv : List Company),
      jsTrim st.formName ≠ "" →
      (companiesHandleEdit st (.ok c) (.ok srv)).companies = srv) ∧
    (∀ (st : CompaniesState) (srv : List Company),
      (companiesHandleDelete st (.ok ()) (.ok srv)).companies = srv) ∧
    (∀ (st : ProductsState) (p : Product) (srvP : List Product) (srvC : List Company),
      jsTrim st.formName ≠ "" → st.formCompanyId ≠ none →
      (productsHandleAdd st (.ok p) (.ok srvP) (.ok srvC)).products = srvP) ∧
    (∀ (st : ProductsState) (p : Product) (srvP : List Product) (srvC : List Company),
      jsTrim st.formName ≠ "" → st.formCompanyId ≠ none →
      (productsHandleEdit st (.ok p) (.ok srvP) (.ok srvC)).products = srvP) ∧
    (∀ (st : ProductsState) (srvP : List Product) (srvC : List Company),
      (productsHandleDelete st (.ok ()) (.ok srvP) (.ok srvC)).products = srvP) ∧
    (∀ (st : StepsState) (s : Step) (srvS : List Step) (srvP : List Product),
      jsTrim st.formName ≠ "" → st.formProductId ≠ none → st.formStepNumber ≠ none →
      (stepsHandleAdd st (.ok s) (.ok srvS) (.ok srvP)).steps = srvS) ∧
    (∀ (st : StepsState) (s : Step) (srvS : List Step) (srvP : List Product),
      jsTrim st.formName ≠ "" → st.formProductId ≠ none → st.formStepNumber ≠ none →
      (stepsHandleEdit st (.ok s) (.ok srvS) (.ok srvP)).steps = srvS) ∧
    (∀ (st : StepsState) (srvS : List Step) (srvP : List Product),
      (stepsHandleDelete st (.ok ()) (.ok srvS) (.ok srvP)).steps = srvS) ∧
    (∀ (st : ClassCountsState) (c : ClassCount) (srvCC : List ClassCount)
        (srvP : List Product),
      jsTrim st.formClass ≠ "" → st.formProductId ≠ none →
      (classCountsHandleAdd st (.ok c) (.ok srvCC) (.ok srvP)).classCounts = srvCC) ∧
    (∀ (st : ClassCountsState) (c : ClassCount) (srvCC : List ClassCount)
        (srvP : List Product),
      jsTrim st.formClass ≠ "" → st.formProductId ≠ none →
      (classCountsHandleEdit st (.ok c) (.ok srvCC) (.ok srvP)).classCounts = srvCC) ∧
    (∀ (st : ClassCountsState) (srvCC : List ClassCount) (srvP : List Product),
      (classCountsHandleDelete st (.ok ()) (.ok srvCC) (.ok srvP)).classCounts = srvCC) ∧
    (∀ (images : List Img) (id : Nat),
      (imageManagerHandleDelete true images id (.ok ())).1
        = images.filter (fun img => img.id ≠ id)) := by
  refine ⟨?_, ?_, ?_, ?_, ?_, ?_, ?_, ?_, ?_, ?_, ?_, ?_, ?_⟩
  · intro st c srv h
    simp [companiesHandleAdd, h, fetchCompanies, createCompany, getCompanies, apiTry]
  · intro st c srv h
    simp [companiesHandleEdit, h, fetchCompanies, updateCompany, getCompanies, apiTry]
  · intro st srv
    simp [companiesHandleDelete, fetchCompanies, deleteCompany, getCompanies, apiTry]
  · intro st p srvP srvC h hfk
    simp [productsHandleAdd, h, hfk, productsFetchData, createProduct, getProducts,
      getCompanies, apiTry]
  · intro st p srvP srvC h hfk
    simp [productsHandleEdit, h, hfk, productsFetchData, updateProduct, getProducts,
      getCompanies, apiTry]
  · intro st srvP srvC
    simp [productsHandleDelete, productsFetchData, deleteProduct, getProducts,
      getCompanies, apiTry]
  · intro st s srvS srvP h hp hs
    simp [stepsHandleAdd, h, hp, hs, stepsFetchData, createStep, getSteps, getProducts,
      apiTry]
  · intro st s srvS srvP h hp hs
    simp [stepsHandleEdit, h, hp, hs, stepsFetchData, updateStep, getSteps, getProducts,
      apiTry]
  · intro st srvS srvP
    simp [stepsHandleDelete, stepsFetchData, deleteStep, getSteps, getProducts, apiTry]
  · intro st c srvCC srvP h hfk
    simp [classCountsHandleAdd, h, hfk, classCountsFetchData, createClassCount,
      getClassCounts, getProducts, apiTry]
  · intro st c srvCC srvP h hfk
    simp [classCountsHandleEdit, h, hfk, classCountsFetchData, updateClassCount,
      getClassCounts, getProducts, apiTry]
  · intro st srvCC srvP
    simp [classCountsHandleDelete, classCountsFetchData, deleteClassCount,
      getClassCounts, getProducts, apiTry]
  · intro images id
    simp [imageManagerHandleDelete]

theorem c2_witness :
    (companiesHandleAdd ⟨[], false, "", false, false, false, "Acme", none, 0⟩
        (.ok ⟨1, "Acme"⟩) (.ok [⟨1, "Acme"⟩])).companies = [⟨1, "Acme"⟩] :=
  c2_amended.1 ⟨[], false, "", false, false, false, "Acme", none, 0⟩
    ⟨1, "Acme"⟩ [⟨1, "Acme"⟩] (by decide)

/-! ## Claim C5 -/

/-- Claim C5 as stated, at the concrete two-rapid-clicks trace: the second
click triggers a cancellation of the first in-flight call (at least one
abort is requested) and exactly one successful completion follows. -/
def claimC5 : Prop :=
  (pcRun pcInit [PCEv.click, PCEv.click, PCEv.settleOk]).aborts ≥ 1 ∧
  (pcRun pcInit [PCEv.click, PCEv.click, PCEv.settleOk]).completions = 1

/-- Claim C5 is false on the code: on the two-rapid-clicks trace the
second click is turned away by the `loading || isCreatingRef.current`
guard BEFORE the cancel-previous branch, so no abort is ever requested
(the abort count stays 0); the first call simply completes. -/
theorem c5_counterexample : ¬ claimC5 := by
  unfold claimC5
  decide

/-- Claim C5 amended: at most one `createProject` call is in flight per
controller instance; an invocation while one is pending is ignored (not
queued) and does not cancel the in-flight call; two rapid clicks produce
exactly one successful completion, one ignored invocation, and zero
cancellations. Indeed the cancel-previous branch is unreachable in any
click/settle trace: the controller ref is nonnull exactly while a call is
in flight, when the guard already returns, so the abort counter is 0 in
every reachable state. -/
theorem c5_amended :
    (pcRun pcInit [PCEv.click, PCEv.click, PCEv.settleOk]
      = ⟨false, false, false, false, some 1, 0, 1, 1⟩) ∧
    (∀ (s : PCState) (p : Nat), s.selectedProduct = some p → s.isCreating = true →
      pcClick s = { s with ignored := s.ignored + 1 }) ∧
    (∀ evs : List PCEv,
      (pcRun pcInit evs).isCreating = (pcRun pcInit evs).hasController ∧
      (pcRun pcInit evs).aborts = 0) := by
  refine ⟨by decide, ?_, ?_⟩
  · intro s p hp hc
    simp [pcClick, hp, hc]
  · have hstep : ∀ (s : PCState) (e : PCEv),
        s.isCreating = s.hasController → s.aborts = 0 →
        (pcStep s e).isCreating = (pcStep s e).hasController ∧ (pcStep s e).aborts = 0 := by
      intro s e hic ha
      cases e with
      | click =>
        show (pcClick s).isCreating = (pcClick s).hasController ∧ (pcClick s).aborts = 0
        unfold pcClick
        rcases s.selectedProduct with _ | p
        · exact ⟨hic, ha⟩
        cases hl : s.loading with
        | true => simp [hl, hic, ha]
        | false =>
          cases hc : s.isCreating with
          | true => simp [hl, hc, hic.symm.trans hc, ha]
          | false =>
            have hhc : s.hasController = false := hic ▸ hc
            simp [hl, hc, hhc, ha]
      | settleOk =>
        show (pcSettleOk s).isCreating = (pcSettleOk s).hasController ∧
          (pcSettleOk s).aborts = 0
        unfold pcSettleOk
        cases hc : s.isCreating with
        | false => simp [hc, (hic ▸ hc : s.hasController = false), ha]
        | true => by_cases hca : s.currentAborted = true <;> simp [hc, hca, ha]
      | settleErr =>
        show (pcSettleErr s).isCreating = (pcSettleErr s).hasController ∧
          (pcSettleErr s).aborts = 0
        unfold pcSettleErr
        cases hc : s.isCreating with
        | false => simp [hc, (hic ▸ hc : s.hasController = false), ha]
        | true => simp [hc, ha]
    intro evs
    have hrun : ∀ (l : List PCEv) (s : PCState),
        s.isCreating = s.hasController → s.aborts = 0 →
        (pcRun s l).isCreating = (pcRun s l).hasController ∧ (pcRun s l).aborts = 0 := by
      intro l
      induction l with
      | nil => intro s h1 h2; exact ⟨h1, h2⟩
      | cons e rest ih =>
        intro s h1 h2
        have h3 := hstep s e h1 h2
        exact ih (pcStep s e) h3.1 h3.2
    exact hrun evs pcInit rfl rfl

theorem c5_witness :
    pcClick ⟨true, true, true, false, some 1, 0, 0, 0⟩
      = ⟨true, true, true, false, some 1, 0, 0, 1⟩ :=
  c5_amended.2.1 ⟨true, true, true, false, some 1, 0, 0, 0⟩ 1 rfl rfl

/-! ## Claim C8 -/

/-- The optimistic success treatment of an upload: success message with
warning annotation, captured image cleared, refresh callback fired. -/
def uploadSuccessTreated (st : CaptureState) : Prop :=
  st.message = "Image uploaded successfully! (network error, but likely succeeded)" ∧
  st.imgSrc = none ∧
  st.refreshCalled = true

/-- Claim C8 as stated: every upload failure with no server-provided
error response is treated optimistically as a success with a warning,
while a failure carrying a truthy server error message is reported as a
failure. -/
def claimC8 : Prop :=
  (∀ (st : CaptureState) (e : UploadErr),
    e.responseError = none →
    uploadSuccessTreated (captureHandleUploadErr st e)) ∧
  (∀ (st : CaptureState) (e : UploadErr) (m : String),
    e.responseError = some m → m ≠ "" →
    (captureHandleUploadErr st e).message = "Upload failed: " ++ m)

/-- Claim C8 is false on the code: the optimistic branch fires only when
the client-side error message contains "network" (case-insensitively). A
failure with no server response whose message is, e.g., "timeout of
1000ms exceeded" is reported as the generic failure, not as a success. -/
theorem c8_counterexample : ¬ claimC8 := by
  intro h
  have h2 := (h.1 ⟨some "img", "", false⟩ ⟨none, some "timeout of 1000ms exceeded"⟩ rfl).1
  exact absurd h2 (by decide)

/-- Claim C8 amended: an upload failure with no server-provided error
response is treated optimistically as success (with a warning, clearing
the captured image, firing the refresh callback) exactly when its
client-side error message contains "network" case-insensitively; any
other ambiguous failure is reported as a generic failure with the
captured image kept; and a truthy server-provided error message is
reported as a failure. -/
theorem c8_amended :
    (∀ (st : CaptureState) (e : UploadErr) (m : String),
      e.responseError = none → e.message = some m → m ≠ "" →
      mentionsNetwork m = true →
      uploadSuccessTreated (captureHandleUploadErr st e)) ∧
    (∀ (st : CaptureState) (e : UploadErr) (m : String),
      e.responseError = none → e.message = some m →
      mentionsNetwork m = false →
      (captureHandleUploadErr st e).message = "Upload failed (network or unknown error)." ∧
      (captureHandleUploadErr st e).imgSrc = st.imgSrc ∧
      (captureHandleUploadErr st e).refreshCalled = st.refreshCalled) ∧
    (∀ (st : CaptureState) (e : UploadErr),
      e.responseError = none → e.message = none →
      (captureHandleUploadErr st e).message = "Upload failed (network or unknown error).") ∧
    (∀ (st : CaptureState) (e : UploadErr) (m : String),
      e.responseError = some m → m ≠ "" →
      (captureHandleUploadErr st e).message = "Upload failed: " ++ m ∧
      (captureHandleUploadErr st e).imgSrc = st.imgSrc ∧
      (captureHandleUploadErr st e).refreshCalled = st.refreshCalled) := by
  refine ⟨?_, ?_, ?_, ?_⟩
  · intro st e m hre hm hne hnet
    unfold uploadSuccessTreated
    simp [captureHandleUploadErr, hre, hm, hne, hnet, jsTruthy]
  · intro st e m hre hm hnet
    simp [captureHandleUploadErr, hre, hm, hnet, jsTruthy]
  · intro st e hre hm
    simp [captureHandleUploadErr, hre, hm, jsTruthy]
  · intro st e m hre hne
    simp [captureHandleUploadErr, hre, hne, jsTruthy]

theorem c8_witness :
    uploadSuccessTreated (captureHandleUploadErr ⟨some "img", "", false⟩
      ⟨none, some "Network Error"⟩) :=
  c8_amended.1 ⟨some "img", "", false⟩ ⟨none, some "Network Error"⟩ "Network Error"
    rfl rfl (by decide) (by decide)

/-! ## Claim C4 -/

/-- Claim C4 (confirmed): for a product whose steps occupy positions
{1,3,5}, the offered set for a new step is exactly [1,20] minus {1,3,5},
i.e. 2,4,6 and then 7..20; in general a number is offered iff it lies in
[1,20] and is not assigned to another step of the same product (the step
being edited excluded); and when all twenty are taken the Add Step button
is disabled and the explanatory message is shown, while a direct submit
without a chosen step number fails locally with zero Gateway calls. -/
theorem c4_step_number_assignment :
    (getAvailableStepNumbers
        [⟨1, "cut", 10, 1⟩, ⟨2, "weld", 10, 3⟩, ⟨3, "paint", 10, 5⟩] (some 10) none
      = [2, 4, 6, 7, 8, 9, 10, 11, 12, 13, 14, 15, 16, 17, 18, 19, 20]) ∧
    (∀ (steps : List Step) (pid : Nat) (excl : Option Nat) (n : Nat),
      n ∈ getAvailableStepNumbers steps (some pid) excl ↔
        (1 ≤ n ∧ n ≤ 20 ∧
         ∀ s ∈ steps, s.product_id = pid → excl ≠ some s.id → s.step_number ≠ n)) ∧
    (∀ (steps : List Step) (pid : Nat),
      getAvailableStepNumbers steps (some pid) none = [] →
      stepAddButtonDisabled false steps (some pid) = true ∧
      stepAddBlockedMessageShown steps (some pid) = true) ∧
    (∀ (st : StepsState) (o1 : AxiosOutcome Step) (o2 : AxiosOutcome (List Step))
        (o3 : AxiosOutcome (List Product)),
      jsTrim st.formName ≠ "" → st.formProductId ≠ none → st.formStepNumber = none →
      stepsHandleAdd st o1 o2 o3 = { st with error := "Step number is required" } ∧
      (stepsHandleAdd st o1 o2 o3).gatewayCalls = st.gatewayCalls) := by
  refine ⟨by decide, ?_, ?_, ?_⟩
  · intro steps pid excl n
    simp [getAvailableStepNumbers]
    constructor
    · rintro ⟨⟨a, ha, rfl⟩, h2⟩
      exact ⟨by omega, by omega, h2⟩
    · rintro ⟨h1, h2, h3⟩
      exact ⟨⟨n - 1, by omega, by omega⟩, h3⟩
  · intro steps pid h
    constructor <;> simp [stepAddButtonDisabled, stepAddBlockedMessageShown, h]
  · intro st o1 o2 o3 h1 h2 h3
    constructor <;> simp [stepsHandleAdd, h1, h2, h3]

theorem c4_witness :
    stepAddButtonDisabled false
        ((List.range 20).map (fun i => (⟨i + 1, "s", 10, i + 1⟩ : Step))) (some 10) = true ∧
    stepAddBlockedMessageShown
        ((List.range 20).map (fun i => (⟨i + 1, "s", 10, i + 1⟩ : Step))) (some 10) = true :=
  c4_step_number_assignment.2.2.1
    ((List.range 20).map (fun i => (⟨i + 1, "s", 10, i + 1⟩ : Step))) 10 (by decide)

end QCMS
